import Mathlib

/-!
# Verification of the Movieapp backend (`src/backend/server.py`)

Shallow embedding of the data model and the operations of the FastAPI
backend: the recommendation endpoint (`get_recommendations`), the
favorites / watchlist / review stores and user registration.

Modelling conventions:
* MongoDB collections are Lean lists kept in insertion order; `find`
  without a sort returns documents in that order, `find_one`,
  `update_one` and `delete_one` act on the first matching document.
* The external TMDB provider is an oracle (`Catalog`): each endpoint is
  a function from the request parameters to `Option Json`, where `none`
  models a non-200 response (the Python wrappers return `None` then).
* Python truthiness on JSON values is `Json.truthy`; `uuid4` and
  `datetime.utcnow` are injected as explicit parameters.
-/

set_option autoImplicit false

namespace Movieapp

/-- JSON values, as returned by `response.json()` of the provider. -/
inductive Json where
  | null : Json
  | bool : Bool → Json
  | num : Int → Json
  | str : String → Json
  | arr : List Json → Json
  | obj : List (String × Json) → Json

/-- Python truthiness of a JSON value (`if recommendations:`). -/
def Json.truthy : Json → Bool
  | .null => false
  | .bool b => b
  | .num n => n != 0
  | .str s => s != ""
  | .arr xs => !xs.isEmpty
  | .obj fs => !fs.isEmpty

/-- Python truthiness of an optional JSON value (`None` is falsy). -/
def truthyOpt : Option Json → Bool
  | none => false
  | some j => j.truthy

/-- The one slice of a `/movie/{id}` details response that
`get_recommendations` reads.  `genres = none` models a response in which
the Python guard `movie_details and "genres" in movie_details` fails
(an empty/falsy dict or a dict without a `genres` key); `genres = some gs`
models a truthy dict whose `genres` key holds a list of objects with the
given `id` fields. -/
structure MovieDetails where
  genres : Option (List Int)
deriving DecidableEq, Repr

/-- The query parameters that `discover_movies_tmdb` sends to the
provider's `/discover/movie` endpoint.  `withGenres`/`year` are `none`
when the parameter is omitted: the Python code adds them only under the
truthiness guards `if genre_id:` and `if year:`. -/
structure DiscoverRequest where
  page : Nat
  sortBy : String
  withGenres : Option Int
  year : Option Int
deriving DecidableEq, Repr

/-- Parameter construction of `discover_movies_tmdb` (server.py:203-209):
`params = {"page": page, "sort_by": sort_by}`, then `with_genres` is added
only `if genre_id:` (so a genre id of `0` or `None` is dropped), and
`year` likewise. -/
def discoverRequest (genreId : Option Int) (year : Option Int)
    (sortBy : String) (page : Nat) : DiscoverRequest :=
  { page := page
    sortBy := sortBy
    withGenres := (match genreId with
      | some g => if g = 0 then none else some g
      | none => none)
    year := (match year with
      | some y => if y = 0 then none else some y
      | none => none) }

/-- One HTTP request issued to the TMDB provider. -/
inductive Req where
  | details : Int → Req
  | popular : Nat → Req
  | topRated : Nat → Req
  | discover : DiscoverRequest → Req
deriving DecidableEq, Repr

/-- The external TMDB provider, as an oracle from request parameters to
responses; `none` models a non-200 response (the wrappers return `None`). -/
structure Catalog where
  details : Int → Option MovieDetails
  popular : Nat → Option Json
  topRated : Nat → Option Json
  discover : DiscoverRequest → Option Json

/-- Embedding of `get_movie_details_tmdb` (server.py:161-169). -/
def get_movie_details_tmdb (cat : Catalog) (movieId : Int) : Option MovieDetails :=
  cat.details movieId

/-- Embedding of `get_popular_movies_tmdb` (server.py:171-180). -/
def get_popular_movies_tmdb (cat : Catalog) (page : Nat) : Option Json :=
  cat.popular page

/-- Embedding of `get_top_rated_movies_tmdb` (server.py:182-191). -/
def get_top_rated_movies_tmdb (cat : Catalog) (page : Nat) : Option Json :=
  cat.topRated page

/-- Embedding of `discover_movies_tmdb` (server.py:203-219). -/
def discover_movies_tmdb (cat : Catalog) (genreId : Option Int) (year : Option Int)
    (sortBy : String) (page : Nat) : Option Json :=
  cat.discover (discoverRequest genreId year sortBy page)

/-- A document of the `favorites` collection, and an element of a
watchlist's `movies` array (`UserMovie` model, server.py:84-90). -/
structure UserMovie where
  id : String
  user_id : String
  movie_id : Int
  movie_title : String
  movie_poster : Option String
  added_at : Nat
deriving DecidableEq, Repr

/-- Embedding of `db.favorites.find({"user_id": ...}).to_list(50)` (server.py:424):
the user's favorites in the collection's natural (insertion) order,
capped at 50.  No sort is applied. -/
def user_favorites (favStore : List UserMovie) (uid : String) : List UserMovie :=
  (favStore.filter fun f => f.user_id = uid).take 50

/-- Embedding of `favorite_movie_ids = [fav["movie_id"] for fav in user_favorites]`
(server.py:431). -/
def favorite_movie_ids (favStore : List UserMovie) (uid : String) : List Int :=
  (user_favorites favStore uid).map (·.movie_id)

/-- The genre-id list one sampled favorite contributes in the loop at
server.py:434-439: the details' `genres` ids when the call succeeded and
the guard `movie_details and "genres" in movie_details` passed, else
nothing. -/
def sampledGenres (cat : Catalog) (movieId : Int) : List Int :=
  match get_movie_details_tmdb cat movieId with
  | some d =>
    match d.genres with
    | some gs => gs
    | none => []
  | none => []

/-- Embedding of `genre_counts[genre_id] = genre_counts.get(genre_id, 0) + 1`
(server.py:439) on an insertion-ordered map: an existing key is bumped in
place, a new key is appended (Python dicts preserve insertion order). -/
def bump (m : List (Int × Nat)) (g : Int) : List (Int × Nat) :=
  match m with
  | [] => [(g, 1)]
  | (k, v) :: rest => if k = g then (k, v + 1) :: rest else (k, v) :: bump rest g

/-- The inner loop of server.py:437-439: count every genre id of one
movie into the map. -/
def bumpAll (m : List (Int × Nat)) (gs : List Int) : List (Int × Nat) :=
  gs.foldl bump m

/-- The `genre_counts` dict built by the loop at server.py:432-439:
fold over `favorite_movie_ids[:10]`, adding each sampled favorite's
genre ids. -/
def genre_counts (cat : Catalog) (ids : List Int) : List (Int × Nat) :=
  (ids.take 10).foldl (fun m movieId => bumpAll m (sampledGenres cat movieId)) []

/-- Scanning loop of Python `max(genre_counts, key=genre_counts.get)`:
keep the current best key, replacing it only on a strictly greater
count (Python `max` returns the first maximal element). -/
def maxKeyGo (k : Int) (v : Nat) : List (Int × Nat) → Int
  | [] => k
  | (k', v') :: rest => if v' > v then maxKeyGo k' v' rest else maxKeyGo k v rest

/-- Embedding of `max(genre_counts, key=genre_counts.get)` (server.py:443) over the
insertion-ordered map, `none` on the empty map (guarded by
`if genre_counts:`). -/
def maxKey : List (Int × Nat) → Option Int
  | [] => none
  | (k, v) :: rest => some (maxKeyGo k v rest)

/-- Embedding of `get_recommendations` (server.py:421-449).  Returns the response
value together with the trace of provider requests issued.

* no favorites → the popular list (page 1);
* otherwise build `genre_counts` from the first 10 favorite ids;
* if the map is non-empty, discover by the max-count genre sorted by
  `vote_average.desc` and return the response if truthy;
* otherwise fall back to the top-rated list. -/
def get_recommendations (cat : Catalog) (favStore : List UserMovie)
    (uid : String) : Option Json × List Req :=
  let favs := user_favorites favStore uid
  if favs.isEmpty then
    (get_popular_movies_tmdb cat 1, [Req.popular 1])
  else
    let ids := favorite_movie_ids favStore uid
    let counts := genre_counts cat ids
    let detailReqs := (ids.take 10).map Req.details
    match maxKey counts with
    | some top_genre =>
      let req := discoverRequest (some top_genre) none "vote_average.desc" 1
      let recommendations := discover_movies_tmdb cat (some top_genre) none "vote_average.desc" 1
      if truthyOpt recommendations then
        (recommendations, detailReqs ++ [Req.discover req])
      else
        (get_top_rated_movies_tmdb cat 1, detailReqs ++ [Req.discover req, Req.topRated 1])
    | none =>
      (get_top_rated_movies_tmdb cat 1, detailReqs ++ [Req.topRated 1])

/-- The user-visible failures raised by the handlers
(`HTTPException`): status 400 on duplicates, 404 on missing targets. -/
inductive ApiFailure where
  | conflict : String → ApiFailure
  | notFound : String → ApiFailure
deriving DecidableEq, Repr

/-- Embedding of `db.<coll>.update_one(filter, {"$set"/"$push": ...})`: apply `f` to
the first document matching `p`, leave the rest unchanged. -/
def updateFirst {α : Type} (p : α → Bool) (f : α → α) : List α → List α
  | [] => []
  | x :: rest => if p x then f x :: rest else x :: updateFirst p f rest

/-- Embedding of `db.<coll>.delete_one(filter)`: remove the first document matching
`p`; also return `deleted_count` (`1` or `0`). -/
def deleteFirst {α : Type} (p : α → Bool) : List α → List α × Nat
  | [] => ([], 0)
  | x :: rest =>
    if p x then (rest, 1)
    else
      let r := deleteFirst p rest
      (x :: r.1, r.2)

/-- Embedding of `add_to_favorites` (server.py:308-323): reject with 400 if a
favorite with this `(user_id, movie_id)` already exists, else insert a
new `UserMovie` document.  Returns the store after the operation and the
outcome. -/
def add_to_favorites (favStore : List UserMovie) (uid : String) (movieId : Int)
    (title : String) (poster : Option String) (newId : String) (now : Nat) :
    List UserMovie × Except ApiFailure String :=
  match favStore.find? (fun f => decide (f.user_id = uid ∧ f.movie_id = movieId)) with
  | some _ => (favStore, .error (.conflict "Movie already in favorites"))
  | none =>
    (favStore ++ [⟨newId, uid, movieId, title, poster, now⟩],
      .ok "Movie added to favorites")

/-- Embedding of `remove_from_favorites` (server.py:330-335): `delete_one` on
`(user_id, movie_id)`, 404 when `deleted_count == 0`. -/
def remove_from_favorites (favStore : List UserMovie) (uid : String) (movieId : Int) :
    List UserMovie × Except ApiFailure String :=
  let r := deleteFirst (fun f => decide (f.user_id = uid ∧ f.movie_id = movieId)) favStore
  if r.2 = 0 then (r.1, .error (.notFound "Movie not found in favorites"))
  else (r.1, .ok "Movie removed from favorites")

/-- A document of the `watchlists` collection (`Watchlist` model,
server.py:100-106). -/
structure Watchlist where
  id : String
  user_id : String
  name : String
  description : Option String
  movies : List UserMovie
  created_at : Nat
deriving DecidableEq, Repr

/-- Embedding of `add_movie_to_watchlist` (server.py:353-375): 404 if no watchlist
matches `(id, user_id)`; 400 if the watchlist already holds the movie;
else `$push` the new `UserMovie` onto the movies array of the matched
watchlist. -/
def add_movie_to_watchlist (wlStore : List Watchlist) (watchlistId uid : String)
    (movieId : Int) (title : String) (poster : Option String) (newId : String)
    (now : Nat) : List Watchlist × Except ApiFailure String :=
  match wlStore.find? (fun w => decide (w.id = watchlistId ∧ w.user_id = uid)) with
  | none => (wlStore, .error (.notFound "Watchlist not found"))
  | some w =>
    if w.movies.any (fun m => decide (m.movie_id = movieId)) then
      (wlStore, .error (.conflict "Movie already in watchlist"))
    else
      (updateFirst (fun w => decide (w.id = watchlistId ∧ w.user_id = uid))
        (fun w => { w with movies := w.movies ++ [⟨newId, uid, movieId, title, poster, now⟩] })
        wlStore,
        .ok "Movie added to watchlist")

/-- A document of the `reviews` collection (`UserReview` model,
server.py:92-98).  The rating is a number in `[0, 10]`; it is only ever
stored and copied, never computed with, so it is carried as `Int`. -/
structure UserReview where
  id : String
  user_id : String
  movie_id : Int
  rating : Int
  review_text : Option String
  created_at : Nat
deriving DecidableEq, Repr

/-- The `(user_id, movie_id)` key of a review row. -/
def reviewKey (r : UserReview) : String × Int :=
  (r.user_id, r.movie_id)

/-- Embedding of `create_review` (server.py:388-408): if a review by this user for
this movie exists, `$set` its rating and text on the first matching
document and return the re-fetched document; else insert a new
`UserReview`.  The returned review is `none` only on the (unreachable)
path where the re-fetch after the update finds nothing. -/
def create_review (revStore : List UserReview) (uid : String) (movieId : Int)
    (rating : Int) (text : Option String) (newId : String) (now : Nat) :
    List UserReview × Option UserReview :=
  match revStore.find? (fun r => decide (r.user_id = uid ∧ r.movie_id = movieId)) with
  | some _ =>
    let revStore' := updateFirst (fun r => decide (r.user_id = uid ∧ r.movie_id = movieId))
      (fun r => { r with rating := rating, review_text := text }) revStore
    (revStore', revStore'.find? (fun r => decide (r.user_id = uid ∧ r.movie_id = movieId)))
  | none =>
    (revStore ++ [⟨newId, uid, movieId, rating, text, now⟩],
      some ⟨newId, uid, movieId, rating, text, now⟩)

/-- A document of the `users` collection (`UserInDB`, server.py:55-63).
The bcrypt hash is injected as an opaque string. -/
structure UserRow where
  id : String
  email : String
  name : String
  hashed_password : String
  created_at : Nat
  profile_image : Option String
deriving DecidableEq, Repr

/-- Embedding of `register` (server.py:222-246): 400 if a user with this email
exists, else insert the new user document and return it (the handler
wraps it in a token). -/
def register (users : List UserRow) (email name hashedPassword : String)
    (newId : String) (now : Nat) : List UserRow × Except ApiFailure UserRow :=
  match users.find? (fun u => decide (u.email = email)) with
  | some _ => (users, .error (.conflict "Email already registered"))
  | none =>
    let u : UserRow := ⟨newId, email, name, hashedPassword, now, none⟩
    (users ++ [u], .ok u)

/-- Count looked up in the insertion-ordered map (first matching key),
`0` for an absent key: `genre_counts.get(g, 0)`. -/
def countVal : List (Int × Nat) → Int → Nat
  | [], _ => 0
  | (k, v) :: rest, g => if k = g then v else countVal rest g

/-- The stream of genre-id occurrences the sampling loop sees: the
concatenation of the sampled favorites' genre lists, in order. -/
def sampledGenreOccurrences (cat : Catalog) (ids : List Int) : List Int :=
  (ids.take 10).flatMap (sampledGenres cat)

theorem countVal_bump (m : List (Int × Nat)) (g0 g : Int) :
    countVal (bump m g0) g = countVal m g + (if g0 = g then 1 else 0) := by
  induction m with
  | nil =>
    by_cases h : g0 = g <;> simp [bump, countVal, h]
  | cons p rest ih =>
    obtain ⟨k, v⟩ := p
    by_cases hk : k = g0
    · by_cases h : k = g
      · have hg : g0 = g := by rw [← hk, h]
        simp [bump, countVal, hk, h, hg]
      · have hg : ¬g0 = g := by rw [← hk]; exact h
        simp [bump, countVal, hk, h, hg]
    · by_cases h : k = g
      · have hg : ¬g0 = g := fun hc => hk (by rw [h, hc])
        have hg' : ¬g = g0 := fun hc => hg hc.symm
        simp [bump, countVal, hk, h, hg, hg']
      · simp [bump, countVal, hk, h, ih]

theorem countVal_bumpAll (gs : List Int) :
    ∀ (m : List (Int × Nat)) (g : Int),
      countVal (bumpAll m gs) g = countVal m g + gs.count g := by
  induction gs with
  | nil => intro m g; simp [bumpAll]
  | cons x gs ih =>
    intro m g
    have hx : bumpAll m (x :: gs) = bumpAll (bump m x) gs := rfl
    have hc : (x :: gs).count g = gs.count g + (if x = g then 1 else 0) := by
      rw [List.count_cons]
      by_cases h : x = g <;> simp [h, beq_iff_eq]
    rw [hx, ih, countVal_bump, hc]
    omega

theorem countVal_fold (cat : Catalog) (l : List Int) :
    ∀ (m : List (Int × Nat)) (g : Int),
      countVal (l.foldl (fun m movieId => bumpAll m (sampledGenres cat movieId)) m) g =
        countVal m g + (l.flatMap (sampledGenres cat)).count g := by
  induction l with
  | nil => intro m g; simp
  | cons x l ih =>
    intro m g
    simp only [List.foldl_cons, List.flatMap_cons, List.count_append]
    rw [ih, countVal_bumpAll]
    omega

/-- The `genre_counts` map counts, for every genre id, the number of
occurrences of that id across the sampled favorites' genre lists. -/
theorem countVal_genre_counts (cat : Catalog) (ids : List Int) (g : Int) :
    countVal (genre_counts cat ids) g = (sampledGenreOccurrences cat ids).count g := by
  have := countVal_fold cat (ids.take 10) [] g
  simpa [genre_counts, sampledGenreOccurrences, countVal] using this

theorem maxKeyGo_first (l : List (Int × Nat)) :
    ∀ (k : Int) (v : Nat),
      (maxKeyGo k v l = k ∧ ∀ p ∈ l, p.2 ≤ v) ∨
      (∃ v' l1 l2, l = l1 ++ (maxKeyGo k v l, v') :: l2 ∧ v < v' ∧
        (∀ p ∈ l1, p.2 < v') ∧ (∀ p ∈ l2, p.2 ≤ v')) := by
  induction l with
  | nil => intro k v; left; exact ⟨rfl, by simp⟩
  | cons q rest ih =>
    intro k v
    obtain ⟨k', v'⟩ := q
    by_cases h : v' > v
    · have hgo : maxKeyGo k v ((k', v') :: rest) = maxKeyGo k' v' rest := by
        rw [maxKeyGo, if_pos h]
      rcases ih k' v' with ⟨heq, hall⟩ | ⟨v'', l1, l2, hsplit, hlt, hbefore, hafter⟩
      · right
        refine ⟨v', [], rest, ?_, h, by simp, hall⟩
        simp [hgo, heq]
      · right
        refine ⟨v'', (k', v') :: l1, l2, ?_, lt_trans h hlt, ?_, hafter⟩
        · rw [hgo, List.cons_append, ← hsplit]
        · intro p hp
          rcases List.mem_cons.mp hp with hp | hp
          · subst hp; exact hlt
          · exact hbefore p hp
    · have hgo : maxKeyGo k v ((k', v') :: rest) = maxKeyGo k v rest := by
        rw [maxKeyGo, if_neg h]
      have hle : v' ≤ v := Nat.le_of_not_lt h
      rcases ih k v with ⟨heq, hall⟩ | ⟨v'', l1, l2, hsplit, hlt, hbefore, hafter⟩
      · left
        refine ⟨by simp [hgo, heq], ?_⟩
        intro p hp
        rcases List.mem_cons.mp hp with hp | hp
        · subst hp; exact hle
        · exact hall p hp
      · right
        refine ⟨v'', (k', v') :: l1, l2, ?_, hlt, ?_, hafter⟩
        · rw [hgo, List.cons_append, ← hsplit]
        · intro p hp
          rcases List.mem_cons.mp hp with hp | hp
          · subst hp; exact Nat.lt_of_le_of_lt hle hlt
          · exact hbefore p hp

/-- The function `maxKey` returns the first key achieving the maximal count: every
entry strictly before it counts strictly less, every entry after it
counts no more. -/
theorem maxKey_first {l : List (Int × Nat)} {k : Int} (h : maxKey l = some k) :
    ∃ v l1 l2, l = l1 ++ (k, v) :: l2 ∧
      (∀ p ∈ l1, p.2 < v) ∧ (∀ p ∈ l2, p.2 ≤ v) := by
  match l, h with
  | (k0, v0) :: rest, h =>
    have hk : maxKeyGo k0 v0 rest = k := by
      simpa [maxKey] using h
    rcases maxKeyGo_first rest k0 v0 with ⟨heq, hall⟩ | ⟨v', l1, l2, hsplit, hlt, hbefore, hafter⟩
    · exact ⟨v0, [], rest, by simp [← hk, heq], by simp, hall⟩
    · refine ⟨v', (k0, v0) :: l1, l2, by rw [List.cons_append, ← hk, ← hsplit], ?_, hafter⟩
      intro p hp
      rcases List.mem_cons.mp hp with hp | hp
      · subst hp; exact hlt
      · exact hbefore p hp

/-- The key returned by `maxKey` carries a maximal count. -/
theorem maxKey_mem_max {l : List (Int × Nat)} {k : Int} (h : maxKey l = some k) :
    ∃ v, (k, v) ∈ l ∧ ∀ p ∈ l, p.2 ≤ v := by
  obtain ⟨v, l1, l2, hsplit, hbefore, hafter⟩ := maxKey_first h
  refine ⟨v, by simp [hsplit], ?_⟩
  intro p hp
  rw [hsplit] at hp
  rcases List.mem_append.mp hp with hp | hp
  · exact Nat.le_of_lt (hbefore p hp)
  · rcases List.mem_cons.mp hp with hp | hp
    · subst hp; exact Nat.le_refl v
    · exact hafter p hp

theorem updateFirst_length {α : Type} (p : α → Bool) (f : α → α) :
    ∀ l : List α, (updateFirst p f l).length = l.length := by
  intro l
  induction l with
  | nil => rfl
  | cons x rest ih =>
    by_cases h : p x <;> simp [updateFirst, h, ih]

theorem updateFirst_map {α β : Type} (key : α → β) (p : α → Bool) (f : α → α)
    (hf : ∀ x, key (f x) = key x) :
    ∀ l : List α, (updateFirst p f l).map key = l.map key := by
  intro l
  induction l with
  | nil => rfl
  | cons x rest ih =>
    by_cases h : p x <;> simp [updateFirst, h, ih, hf]

theorem updateFirst_mem {α : Type} (p : α → Bool) (f : α → α) {x : α} :
    ∀ l : List α, x ∈ l → p x = false → x ∈ updateFirst p f l := by
  intro l
  induction l with
  | nil => intro h _; exact absurd h (List.not_mem_nil x)
  | cons y rest ih =>
    intro hmem hx
    by_cases h : p y
    · rcases List.mem_cons.mp hmem with hmem | hmem
      · subst hmem; rw [hx] at h; exact absurd h (by simp)
      · simp [updateFirst, h, hmem]
    · rcases List.mem_cons.mp hmem with hmem | hmem
      · subst hmem; simp [updateFirst, h]
      · simp [updateFirst, h, ih hmem hx]

theorem find?_updateFirst {α : Type} (p : α → Bool) (f : α → α)
    (hf : ∀ y, p y = true → p (f y) = true) :
    ∀ (l : List α) (x : α), l.find? p = some x →
      (updateFirst p f l).find? p = some (f x) := by
  intro l
  induction l with
  | nil => intro x h; simp [List.find?] at h
  | cons y rest ih =>
    intro x h
    by_cases hy : p y
    · have hx : y = x := by
        rw [List.find?_cons_of_pos _ hy] at h
        exact Option.some.inj h
      subst hx
      rw [show updateFirst p f (y :: rest) = f y :: rest by simp [updateFirst, hy]]
      exact List.find?_cons_of_pos _ (hf y hy)
    · have h' : rest.find? p = some x := by
        rwa [List.find?_cons_of_neg _ hy] at h
      rw [show updateFirst p f (y :: rest) = y :: updateFirst p f rest by simp [updateFirst, hy]]
      rw [List.find?_cons_of_neg _ hy]
      exact ih x h'

theorem deleteFirst_of_none {α : Type} (p : α → Bool) :
    ∀ l : List α, (∀ x ∈ l, ¬p x = true) → deleteFirst p l = (l, 0) := by
  intro l
  induction l with
  | nil => intro _; rfl
  | cons x rest ih =>
    intro h
    have hx : p x = false := by
      have := h x (List.mem_cons_self x rest)
      simpa using this
    have hrest := ih fun y hy => h y (List.mem_cons_of_mem x hy)
    simp [deleteFirst, hx, hrest]

theorem countP_key_eq_one {α β : Type} [DecidableEq β] (key : α → β) (x : β) :
    ∀ l : List α, (l.map key).Nodup → (∃ a ∈ l, key a = x) →
      l.countP (fun r => decide (key r = x)) = 1 := by
  intro l
  induction l with
  | nil =>
    intro _ hex
    obtain ⟨a, ha, _⟩ := hex
    exact absurd ha (List.not_mem_nil a)
  | cons y rest ih =>
    intro hnd hex
    rw [List.map_cons] at hnd
    have hnd' := List.nodup_cons.mp hnd
    rw [List.countP_cons]
    by_cases hy : key y = x
    · have hzero : rest.countP (fun r => decide (key r = x)) = 0 := by
        rw [List.countP_eq_zero]
        intro a ha
        simp only [decide_eq_true_eq]
        intro hax
        have hmem : key y ∈ rest.map key := by
          rw [hy, ← hax]
          exact List.mem_map_of_mem key ha
        exact hnd'.1 hmem
      simp [hy, hzero]
    · have hex' : ∃ a ∈ rest, key a = x := by
        obtain ⟨a, ha, hax⟩ := hex
        rcases List.mem_cons.mp ha with h | h
        · subst h; exact absurd hax hy
        · exact ⟨a, h, hax⟩
      have hcnt := ih hnd'.2 hex'
      simp [hy, hcnt]

theorem countP_eq_count_map {α β : Type} [DecidableEq β] (key : α → β) (x : β) :
    ∀ l : List α, l.countP (fun r => decide (key r = x)) = (l.map key).count x := by
  intro l
  induction l with
  | nil => rfl
  | cons y rest ih =>
    rw [List.countP_cons, List.map_cons, List.count_cons, ih]
    by_cases h : key y = x <;> simp [h, beq_iff_eq]

/-- A small truthy JSON page, standing for a provider result page. -/
def demoPage : Json := Json.obj [("page", Json.num 1)]

/-- A provider oracle for concrete evaluations: movie 1 has genres
`[28, 12]`, movie 2 has genre `[28]`, every other details call fails;
the list endpoints all answer with `demoPage`. -/
def demoCatalog : Catalog where
  details := fun m =>
    if m = 1 then some ⟨some [28, 12]⟩
    else if m = 2 then some ⟨some [28]⟩
    else none
  popular := fun _ => some demoPage
  topRated := fun _ => some demoPage
  discover := fun _ => some demoPage

/-- A provider oracle where every call fails (non-200 everywhere). -/
def failingCatalog : Catalog where
  details := fun _ => none
  popular := fun _ => none
  topRated := fun _ => none
  discover := fun _ => none

/-- Favorite entry of user `"u"` for movie `n`, added at time `n`. -/
def favRow (n : Nat) : UserMovie :=
  ⟨toString n, "u", (n : Int), toString n, none, n⟩

/-- C3: a user with zero favorites gets the popular-movies list, and the
only provider request issued is the popular call — no details fetch and
no discovery query. -/
theorem rec_no_favorites_popular (cat : Catalog) (favStore : List UserMovie) (uid : String)
    (h : favStore.filter (fun f => f.user_id = uid) = []) :
    get_recommendations cat favStore uid = (get_popular_movies_tmdb cat 1, [Req.popular 1]) := by
  have hfav : user_favorites favStore uid = [] := by simp [user_favorites, h]
  simp [get_recommendations, hfav]

theorem rec_no_favorites_popular_witness :
    ([favRow 1].filter (fun f => f.user_id = "v") = []) ∧
    get_recommendations demoCatalog [favRow 1] "v" =
      (get_popular_movies_tmdb demoCatalog 1, [Req.popular 1]) :=
  ⟨by decide, rec_no_favorites_popular demoCatalog [favRow 1] "v" (by decide)⟩

/-- C4: with favorites present, if the genre-count map came out empty or
the discovery response is falsy (a failed call or falsy JSON), the
endpoint answers with the top-rated list. -/
theorem rec_fallback_top_rated (cat : Catalog) (favStore : List UserMovie) (uid : String)
    (hne : user_favorites favStore uid ≠ [])
    (h : genre_counts cat (favorite_movie_ids favStore uid) = [] ∨
      ∃ g, maxKey (genre_counts cat (favorite_movie_ids favStore uid)) = some g ∧
        truthyOpt (discover_movies_tmdb cat (some g) none "vote_average.desc" 1) = false) :
    (get_recommendations cat favStore uid).1 = get_top_rated_movies_tmdb cat 1 := by
  have hempty : (user_favorites favStore uid).isEmpty = false := by
    simp [List.isEmpty_iff, hne]
  rcases h with h | ⟨g, hg, htr⟩
  · simp [get_recommendations, hempty, h, maxKey]
  · simp [get_recommendations, hempty, hg, htr]

theorem rec_fallback_top_rated_witness :
    (user_favorites [favRow 1] "u" ≠ []) ∧
    genre_counts failingCatalog (favorite_movie_ids [favRow 1] "u") = [] ∧
    (get_recommendations failingCatalog [favRow 1] "u").1 =
      get_top_rated_movies_tmdb failingCatalog 1 :=
  ⟨by decide, by decide,
    rec_fallback_top_rated failingCatalog [favRow 1] "u" (by decide) (Or.inl (by decide))⟩

/-- C5: a sampled favorite whose details call fails, or whose details
carry no genre data, contributes nothing: the genre counts are exactly
those computed from the remaining favorites (within the 10-favorite
sampling window), so one bad movie never blocks the rest. -/
theorem rec_failed_details_skipped (cat : Catalog) (l1 l2 : List Int) (m : Int)
    (hlen : (l1 ++ m :: l2).length ≤ 10)
    (hfail : cat.details m = none ∨ ∃ d, cat.details m = some d ∧ d.genres = none) :
    genre_counts cat (l1 ++ m :: l2) = genre_counts cat (l1 ++ l2) := by
  have hm : sampledGenres cat m = [] := by
    rcases hfail with h | ⟨d, hd, hg⟩
    · simp [sampledGenres, get_movie_details_tmdb, h]
    · simp [sampledGenres, get_movie_details_tmdb, hd, hg]
  have hlen2 : (l1 ++ l2).length ≤ 10 := by
    simp only [List.length_append, List.length_cons] at hlen ⊢
    omega
  rw [genre_counts, genre_counts, List.take_of_length_le hlen, List.take_of_length_le hlen2]
  rw [List.foldl_append, List.foldl_append, List.foldl_cons, hm]
  simp [bumpAll]

theorem rec_failed_details_skipped_witness :
    (([1, 5, 2] : List Int).length ≤ 10) ∧
    demoCatalog.details 5 = none ∧
    genre_counts demoCatalog [1, 5, 2] = genre_counts demoCatalog [1, 2] :=
  ⟨by decide, by decide,
    rec_failed_details_skipped demoCatalog [1] [2] 5 (by decide) (Or.inl (by decide))⟩

/-- C6: the genre selected from the genre-count map is the first key in
the map's (insertion) iteration order that attains the maximal count:
everything before it counts strictly less, everything after counts no
more — so among tied top genres the first encountered wins. -/
theorem rec_tie_first_encountered (cat : Catalog) (ids : List Int) (k : Int)
    (h : maxKey (genre_counts cat ids) = some k) :
    ∃ v l1 l2, genre_counts cat ids = l1 ++ (k, v) :: l2 ∧
      (∀ p ∈ l1, p.2 < v) ∧ (∀ p ∈ l2, p.2 ≤ v) :=
  maxKey_first h

theorem rec_tie_first_encountered_witness :
    maxKey (genre_counts demoCatalog [1]) = some 28 ∧
    (∃ v l1 l2, genre_counts demoCatalog [1] = l1 ++ (28, v) :: l2 ∧
      (∀ p ∈ l1, p.2 < v) ∧ (∀ p ∈ l2, p.2 ≤ v)) :=
  ⟨by decide, rec_tie_first_encountered demoCatalog [1] 28 (by decide)⟩

/-- C9: removing a favorite the user does not have deletes nothing,
reports a 404 not-found failure, and leaves the favorites store
unchanged. -/
theorem remove_missing_favorite_not_found (favStore : List UserMovie) (uid : String)
    (movieId : Int)
    (h : ∀ f ∈ favStore, ¬(f.user_id = uid ∧ f.movie_id = movieId)) :
    remove_from_favorites favStore uid movieId =
      (favStore, .error (.notFound "Movie not found in favorites")) := by
  have hd := deleteFirst_of_none
    (fun f => decide (f.user_id = uid ∧ f.movie_id = movieId)) favStore
    (by intro x hx; simpa using h x hx)
  simp only [remove_from_favorites]
  rw [hd]
  simp

theorem remove_missing_favorite_not_found_witness :
    (∀ f ∈ [favRow 1], ¬(f.user_id = "u" ∧ f.movie_id = 2)) ∧
    remove_from_favorites [favRow 1] "u" 2 =
      ([favRow 1], .error (.notFound "Movie not found in favorites")) :=
  ⟨by decide, remove_missing_favorite_not_found [favRow 1] "u" 2 (by decide)⟩

/-- C10: registering with the email of an existing user yields the
conflict failure and inserts nothing — the user store is returned
unchanged. -/
theorem register_duplicate_email_rejected (users : List UserRow)
    (email name hashedPassword newId : String) (now : Nat)
    (h : ∃ u ∈ users, u.email = email) :
    register users email name hashedPassword newId now =
      (users, .error (.conflict "Email already registered")) := by
  have hsome : (users.find? (fun u => decide (u.email = email))).isSome := by
    rw [List.find?_isSome]
    obtain ⟨u, hu, he⟩ := h
    exact ⟨u, hu, by simpa using he⟩
  obtain ⟨u0, hu0⟩ := Option.isSome_iff_exists.mp hsome
  simp [register, hu0]

theorem register_duplicate_email_rejected_witness :
    (∃ u ∈ [(⟨"id1", "a@b.c", "A", "h", 0, none⟩ : UserRow)], u.email = "a@b.c") ∧
    register [(⟨"id1", "a@b.c", "A", "h", 0, none⟩ : UserRow)] "a@b.c" "B" "h2" "id2" 1 =
      ([(⟨"id1", "a@b.c", "A", "h", 0, none⟩ : UserRow)],
        .error (.conflict "Email already registered")) :=
  ⟨by decide,
    register_duplicate_email_rejected [⟨"id1", "a@b.c", "A", "h", 0, none⟩]
      "a@b.c" "B" "h2" "id2" 1 (by decide)⟩

/-- C8: adding a movie already present in the same collection is
rejected with a 400 conflict and the collection is returned unchanged:
a second add of the same `(user, movie)` favorite fails, and adding a
movie already held by the addressed watchlist fails. -/
theorem duplicate_collection_add_rejected
    (favStore : List UserMovie) (uid : String) (movieId : Int) (title : String)
    (poster : Option String) (newId : String) (now : Nat)
    (wlStore : List Watchlist) (watchlistId : String) (w : Watchlist) :
    ((∃ f ∈ favStore, f.user_id = uid ∧ f.movie_id = movieId) →
      add_to_favorites favStore uid movieId title poster newId now =
        (favStore, .error (.conflict "Movie already in favorites"))) ∧
    (wlStore.find? (fun w' => decide (w'.id = watchlistId ∧ w'.user_id = uid)) = some w →
      (∃ m ∈ w.movies, m.movie_id = movieId) →
      add_movie_to_watchlist wlStore watchlistId uid movieId title poster newId now =
        (wlStore, .error (.conflict "Movie already in watchlist"))) := by
  constructor
  · intro h
    have hsome : (favStore.find?
        (fun f => decide (f.user_id = uid ∧ f.movie_id = movieId))).isSome := by
      rw [List.find?_isSome]
      obtain ⟨f, hf, hp⟩ := h
      exact ⟨f, hf, by simpa using hp⟩
    obtain ⟨f0, hf0⟩ := Option.isSome_iff_exists.mp hsome
    simp only [add_to_favorites]
    rw [hf0]
  · intro hfind hdup
    have hany : w.movies.any (fun m => decide (m.movie_id = movieId)) = true := by
      rw [List.any_eq_true]
      obtain ⟨m, hm, he⟩ := hdup
      exact ⟨m, hm, by simpa using he⟩
    simp only [add_movie_to_watchlist]
    rw [hfind]
    simp [hany]

theorem duplicate_collection_add_rejected_witness :
    (∃ f ∈ [favRow 1], f.user_id = "u" ∧ f.movie_id = 1) ∧
    add_to_favorites [favRow 1] "u" 1 "1" none "x" 9 =
      ([favRow 1], .error (.conflict "Movie already in favorites")) ∧
    ([(⟨"w1", "u", "list", none, [favRow 1], 0⟩ : Watchlist)].find?
        (fun w' => decide (w'.id = "w1" ∧ w'.user_id = "u")) =
      some ⟨"w1", "u", "list", none, [favRow 1], 0⟩) ∧
    add_movie_to_watchlist [(⟨"w1", "u", "list", none, [favRow 1], 0⟩ : Watchlist)]
        "w1" "u" 1 "1" none "x" 9 =
      ([(⟨"w1", "u", "list", none, [favRow 1], 0⟩ : Watchlist)],
        .error (.conflict "Movie already in watchlist")) :=
  ⟨by decide,
    (duplicate_collection_add_rejected [favRow 1] "u" 1 "1" none "x" 9
      [⟨"w1", "u", "list", none, [favRow 1], 0⟩] "w1"
      ⟨"w1", "u", "list", none, [favRow 1], 0⟩).1 (by decide),
    by decide,
    (duplicate_collection_add_rejected [favRow 1] "u" 1 "1" none "x" 9
      [⟨"w1", "u", "list", none, [favRow 1], 0⟩] "w1"
      ⟨"w1", "u", "list", none, [favRow 1], 0⟩).2 (by decide) (by decide)⟩

/-- C1 (amended): for a user with favorites whose sampled details yield
a non-empty genre-count map, the map counts one occurrence per genre-id
appearance across the sampled favorites (a genre listed for two
favorites counts twice), the selected genre has a maximal count, and —
provided the selected genre id is nonzero — a discovery request
filtered by that genre and sorted by `vote_average.desc` is issued. -/
theorem rec_counts_and_discovery (cat : Catalog) (favStore : List UserMovie)
    (uid : String) (g : Int)
    (hne : user_favorites favStore uid ≠ [])
    (htop : maxKey (genre_counts cat (favorite_movie_ids favStore uid)) = some g)
    (hg : g ≠ 0) :
    (∀ g', countVal (genre_counts cat (favorite_movie_ids favStore uid)) g' =
        (sampledGenreOccurrences cat (favorite_movie_ids favStore uid)).count g') ∧
    (∃ v, (g, v) ∈ genre_counts cat (favorite_movie_ids favStore uid) ∧
      ∀ p ∈ genre_counts cat (favorite_movie_ids favStore uid), p.2 ≤ v) ∧
    Req.discover { page := 1, sortBy := "vote_average.desc", withGenres := some g, year := none } ∈
      (get_recommendations cat favStore uid).2 := by
  refine ⟨fun g' => countVal_genre_counts cat _ g', maxKey_mem_max htop, ?_⟩
  have hempty : (user_favorites favStore uid).isEmpty = false := by
    simp [List.isEmpty_iff, hne]
  have hreq : discoverRequest (some g) none "vote_average.desc" 1 =
      { page := 1, sortBy := "vote_average.desc", withGenres := some g, year := none } := by
    simp [discoverRequest, hg]
  simp only [get_recommendations, hempty, Bool.false_eq_true, if_false, htop, hreq]
  split <;> simp

/-- Favorites store for the C1 witness: user `"u"` favors movies 1 and
2 — the scenario of the spec. -/
def actionStore : List UserMovie := [favRow 1, favRow 2]

/-- Catalog for the C1 witness, the spec's scenario: movie 1's details
list genre 28 (Action) twice, movie 2's list it once, so genre 28 is
counted three times. -/
def actionCatalog : Catalog where
  details := fun m =>
    if m = 1 then some ⟨some [28, 28]⟩
    else if m = 2 then some ⟨some [28]⟩
    else none
  popular := fun _ => some demoPage
  topRated := fun _ => some demoPage
  discover := fun _ => some demoPage

theorem rec_counts_and_discovery_witness :
    (user_favorites actionStore "u" ≠ []) ∧
    maxKey (genre_counts actionCatalog (favorite_movie_ids actionStore "u")) = some 28 ∧
    countVal (genre_counts actionCatalog (favorite_movie_ids actionStore "u")) 28 = 3 ∧
    ((∀ g', countVal (genre_counts actionCatalog (favorite_movie_ids actionStore "u")) g' =
        (sampledGenreOccurrences actionCatalog (favorite_movie_ids actionStore "u")).count g') ∧
      (∃ v, (28, v) ∈ genre_counts actionCatalog (favorite_movie_ids actionStore "u") ∧
        ∀ p ∈ genre_counts actionCatalog (favorite_movie_ids actionStore "u"), p.2 ≤ v) ∧
      Req.discover { page := 1, sortBy := "vote_average.desc", withGenres := some 28, year := none } ∈
        (get_recommendations actionCatalog actionStore "u").2) :=
  ⟨by decide, by decide, by decide,
    rec_counts_and_discovery actionCatalog actionStore "u" 28 (by decide) (by decide) (by decide)⟩

/-- Catalog for the C1 counterexample: the single favorite's details
list exactly one genre, with id `0`; discovery always answers a truthy
page. -/
def zeroGenreCatalog : Catalog where
  details := fun m => if m = 1 then some ⟨some [0]⟩ else none
  popular := fun _ => some demoPage
  topRated := fun _ => some demoPage
  discover := fun _ => some demoPage

/-- Favorites store for the C1 counterexample. -/
def zeroGenreStore : List UserMovie := [favRow 1]

/-- C1 (counterexample): when the derived top genre id is `0`, the
Python truthiness guard `if genre_id:` drops the `with_genres`
parameter, so the discovery request issued carries no genre filter at
all — contradicting the claim that discovery is always filtered by the
selected genre. -/
theorem rec_zero_genre_discovery_unfiltered :
    maxKey (genre_counts zeroGenreCatalog (favorite_movie_ids zeroGenreStore "u")) = some 0 ∧
    (get_recommendations zeroGenreCatalog zeroGenreStore "u").2 =
      [Req.details 1,
        Req.discover { page := 1, sortBy := "vote_average.desc", withGenres := none, year := none }] ∧
    Req.discover { page := 1, sortBy := "vote_average.desc", withGenres := some 0, year := none } ∉
      (get_recommendations zeroGenreCatalog zeroGenreStore "u").2 := by
  refine ⟨by decide, by decide, by decide⟩

/-- Eleven favorites of user `"u"`, for movies 1..11, added in that
order (`added_at` increasing). -/
def elevenFavorites : List UserMovie :=
  (List.range 11).map (fun i => favRow (i + 1))

/-- C2 (failing input): with eleven favorites added in order 1..11, the
sampling loop fetches details for movies 1..10 — the ten
earliest-added favorites, in insertion order — and never for movie 11,
the most recently added one; the claimed most-recently-added sampling
order does not occur. -/
theorem rec_samples_first_ten :
    (get_recommendations failingCatalog elevenFavorites "u").2 =
      [Req.details 1, Req.details 2, Req.details 3, Req.details 4, Req.details 5,
        Req.details 6, Req.details 7, Req.details 8, Req.details 9, Req.details 10,
        Req.topRated 1] ∧
    Req.details 11 ∉ (get_recommendations failingCatalog elevenFavorites "u").2 ∧
    (get_recommendations failingCatalog elevenFavorites "u").2 ≠
      [Req.details 11, Req.details 10, Req.details 9, Req.details 8, Req.details 7,
        Req.details 6, Req.details 5, Req.details 4, Req.details 3, Req.details 2,
        Req.topRated 1] := by
  refine ⟨by decide, by decide, by decide⟩

/-- C7: under the one-review-per-(user, movie) invariant, creating a
review upserts: the invariant is preserved, afterwards exactly one row
exists for the touched pair, rows of other pairs survive, and when a row
for the pair already existed the store keeps its length (no second row
is inserted) while the row now carries the new rating and text. -/
theorem create_review_upsert (revStore : List UserReview) (uid : String) (movieId : Int)
    (rating : Int) (text : Option String) (newId : String) (now : Nat)
    (hinv : (revStore.map reviewKey).Nodup) :
    (((create_review revStore uid movieId rating text newId now).1.map reviewKey).Nodup) ∧
    ((create_review revStore uid movieId rating text newId now).1.countP
        (fun r => decide (reviewKey r = (uid, movieId))) = 1) ∧
    (∀ r ∈ revStore, reviewKey r ≠ (uid, movieId) →
      r ∈ (create_review revStore uid movieId rating text newId now).1) ∧
    ((∃ r ∈ revStore, reviewKey r = (uid, movieId)) →
      (create_review revStore uid movieId rating text newId now).1.length = revStore.length ∧
      ∃ r' ∈ (create_review revStore uid movieId rating text newId now).1,
        reviewKey r' = (uid, movieId) ∧ r'.rating = rating ∧ r'.review_text = text) := by
  cases h0 : revStore.find? (fun r => decide (r.user_id = uid ∧ r.movie_id = movieId)) with
  | some r0 =>
    have hs : (create_review revStore uid movieId rating text newId now).1 =
        updateFirst (fun r => decide (r.user_id = uid ∧ r.movie_id = movieId))
          (fun r => { r with rating := rating, review_text := text }) revStore := by
      simp only [create_review, h0]
    have hr0mem : r0 ∈ revStore := List.mem_of_find?_eq_some h0
    have hr0p : r0.user_id = uid ∧ r0.movie_id = movieId := by
      have := List.find?_some h0
      simpa using this
    have hr0key : reviewKey r0 = (uid, movieId) := by
      simp [reviewKey, hr0p.1, hr0p.2]
    have hmap : ((create_review revStore uid movieId rating text newId now).1.map reviewKey) =
        revStore.map reviewKey := by
      rw [hs]
      exact updateFirst_map reviewKey
        (fun r => decide (r.user_id = uid ∧ r.movie_id = movieId))
        (fun r => { r with rating := rating, review_text := text })
        (fun x => rfl) revStore
    refine ⟨by rw [hmap]; exact hinv, ?_, ?_, ?_⟩
    · rw [countP_eq_count_map reviewKey (uid, movieId), hmap,
        ← countP_eq_count_map reviewKey (uid, movieId)]
      exact countP_key_eq_one reviewKey (uid, movieId) revStore hinv ⟨r0, hr0mem, hr0key⟩
    · intro r hr hk
      rw [hs]
      apply updateFirst_mem _ _ revStore hr
      have hnp : ¬(r.user_id = uid ∧ r.movie_id = movieId) := by
        intro hc
        exact hk (by simp [reviewKey, hc.1, hc.2])
      show decide (r.user_id = uid ∧ r.movie_id = movieId) = false
      rw [decide_eq_false_iff_not]
      exact hnp
    · intro _
      constructor
      · rw [hs]
        exact updateFirst_length _ _ revStore
      · have hfind := find?_updateFirst
          (fun r => decide (r.user_id = uid ∧ r.movie_id = movieId))
          (fun r => { r with rating := rating, review_text := text })
          (fun y hy => hy) revStore r0 h0
        refine ⟨{ r0 with rating := rating, review_text := text }, ?_, ?_, rfl, rfl⟩
        · rw [hs]
          exact List.mem_of_find?_eq_some hfind
        · simp [reviewKey, hr0p.1, hr0p.2]
  | none =>
    have hs : (create_review revStore uid movieId rating text newId now).1 =
        revStore ++ [⟨newId, uid, movieId, rating, text, now⟩] := by
      simp only [create_review, h0]
    have hnomatch : ∀ r ∈ revStore, ¬(r.user_id = uid ∧ r.movie_id = movieId) := by
      intro r hr
      have := List.find?_eq_none.mp h0 r hr
      simpa using this
    have hkeys : ∀ r ∈ revStore, reviewKey r ≠ (uid, movieId) := by
      intro r hr hc
      simp only [reviewKey, Prod.mk.injEq] at hc
      exact hnomatch r hr hc
    refine ⟨?_, ?_, ?_, ?_⟩
    · rw [hs, List.map_append, List.nodup_append]
      refine ⟨hinv, List.nodup_singleton _, ?_⟩
      intro a ha hb
      obtain ⟨r, hr, hrk⟩ := List.mem_map.mp ha
      have hb' : a = reviewKey ⟨newId, uid, movieId, rating, text, now⟩ := by
        simpa using hb
      rw [← hrk] at hb'
      exact hkeys r hr (by rw [hb']; rfl)
    · rw [hs, List.countP_append]
      have h0c : revStore.countP (fun r => decide (reviewKey r = (uid, movieId))) = 0 := by
        rw [List.countP_eq_zero]
        intro r hr
        simp [hkeys r hr]
      rw [h0c]
      simp [List.countP_cons, reviewKey]
    · intro r hr _
      rw [hs]
      exact List.mem_append_left _ hr
    · intro hex
      obtain ⟨r, hr, hk⟩ := hex
      exact absurd hk (hkeys r hr)

theorem create_review_upsert_witness :
    (([(⟨"r1", "u", 5, 7, some "old", 0⟩ : UserReview)].map reviewKey).Nodup) ∧
    ((((create_review [(⟨"r1", "u", 5, 7, some "old", 0⟩ : UserReview)]
        "u" 5 9 (some "new") "r2" 3).1.map reviewKey).Nodup) ∧
      ((create_review [(⟨"r1", "u", 5, 7, some "old", 0⟩ : UserReview)]
          "u" 5 9 (some "new") "r2" 3).1.countP
        (fun r => decide (reviewKey r = ("u", 5))) = 1) ∧
      (∀ r ∈ [(⟨"r1", "u", 5, 7, some "old", 0⟩ : UserReview)], reviewKey r ≠ ("u", 5) →
        r ∈ (create_review [(⟨"r1", "u", 5, 7, some "old", 0⟩ : UserReview)]
          "u" 5 9 (some "new") "r2" 3).1) ∧
      ((∃ r ∈ [(⟨"r1", "u", 5, 7, some "old", 0⟩ : UserReview)], reviewKey r = ("u", 5)) →
        (create_review [(⟨"r1", "u", 5, 7, some "old", 0⟩ : UserReview)]
          "u" 5 9 (some "new") "r2" 3).1.length =
          [(⟨"r1", "u", 5, 7, some "old", 0⟩ : UserReview)].length ∧
        ∃ r' ∈ (create_review [(⟨"r1", "u", 5, 7, some "old", 0⟩ : UserReview)]
            "u" 5 9 (some "new") "r2" 3).1,
          reviewKey r' = ("u", 5) ∧ r'.rating = 9 ∧ r'.review_text = some "new")) :=
  ⟨by decide,
    create_review_upsert [⟨"r1", "u", 5, 7, some "old", 0⟩] "u" 5 9 (some "new") "r2" 3
      (by decide)⟩

end Movieapp
